import Mathlib

/-!
# Verification of the batch orchestration engine (`gretel_synthetics/batch.py`)

Shallow embedding of the `Batch` dataclass and the `DataFrameBatch` coordinator.
Python strings become Lean `String`s, `io.StringIO` accumulation becomes a
`String` field written by appending, the `batches` dict (int -> Batch) becomes
an association list `List (Nat × Batch)` looked up with `List.lookup`, and
Python exceptions become an explicit `Except PyErr` result.  In-place mutation
of caller-supplied objects is modelled by returning the updated values.
-/

namespace GretelBatch

/-- Python exceptions that occur in the orchestration layer.  `valueError`
carries the message of a `ValueError`; `keyError` models a dict-lookup
`KeyError`; `zeroDivision` models `ZeroDivisionError`; `external` models any
other exception raised by an external collaborator (tagged by a number so
distinct failures are distinguishable). -/
inductive PyErr where
  | valueError (msg : String)
  | keyError
  | zeroDivision
  | stopIteration
  | external (tag : Nat)
deriving Repr, DecidableEq

/-- The `gen_text` record produced by the external generator: the raw text of
the line and its validity flag (`None`, `True` or `False` in Python). -/
structure GenText where
  text : String
  valid : Option Bool
deriving Repr, DecidableEq

/-- The fields of `LocalConfig` that the batch orchestration reads. -/
structure LocalConfig where
  checkpoint_dir : String
  input_data_path : String
  field_delimiter : String
  gen_lines : Nat
deriving Repr, DecidableEq

/-- Python's `str.split(sep)` for a non-empty separator, on character lists.
Structural recursion on a fuel argument (any fuel at least the length of the
input computes the split); scans left to right, cutting at each non-overlapping
occurrence of `sep`. -/
def pySplitAux (sep : List Char) : Nat → List Char → List Char → List (List Char)
  | _, [], acc => [acc.reverse]
  | 0, s, acc => [acc.reverse ++ s]
  | fuel + 1, c :: rest, acc =>
    if sep.isPrefixOf (c :: rest) then
      acc.reverse :: pySplitAux sep fuel (List.drop (sep.length - 1) rest) []
    else
      pySplitAux sep fuel rest (c :: acc)

/-- Python's `str.split(sep)`.  Python raises `ValueError` on an empty
separator; the orchestration only ever splits on the configured field
delimiter, which callers supply non-empty, so the empty-separator case
(modelled as returning the whole string) is never exercised. -/
def pySplit (sep s : String) : List String :=
  if sep.data.isEmpty then [s]
  else (pySplitAux sep.data s.data.length s.data []).map (fun cs => String.mk cs)

/-- The `Batch` dataclass: per-batch state for training and generation.
`gen_data_stream` holds the accumulated contents of the `io.StringIO`
stream; `validator` is the optional custom validation callable. -/
structure Batch where
  checkpoint_dir : String
  input_data_path : String
  headers : List String
  config : LocalConfig
  gen_data_count : Nat
  gen_data_stream : String
  gen_data_invalid : List GenText
  validator : Option (String → Bool)

/-- Python's `delim.join(parts)`. -/
def pyJoin (delim : String) : List String → String
  | [] => ""
  | [s] => s
  | s :: rest => s ++ delim ++ pyJoin delim rest

/-- `Batch.reset_gen_data`: clear the invalid list, reinitialize the stream
with the header line (headers joined by the field delimiter, newline
terminated) and zero the valid-record count. -/
def Batch.reset_gen_data (b : Batch) : Batch :=
  { b with
    gen_data_invalid := []
    gen_data_stream := pyJoin b.config.field_delimiter b.headers ++ "\n"
    gen_data_count := 0 }

/-- `Batch.add_valid_data`: write the line's text plus a newline to the
stream and increment the valid-record count. -/
def Batch.add_valid_data (b : Batch) (data : GenText) : Batch :=
  { b with
    gen_data_stream := b.gen_data_stream ++ data.text ++ "\n"
    gen_data_count := b.gen_data_count + 1 }

/-- `Batch._basic_validator`: a raw line is valid iff splitting it on the
configured field delimiter yields exactly as many fields as this batch has
headers. -/
def Batch.basic_validator (b : Batch) (raw_line : String) : Bool :=
  (pySplit b.config.field_delimiter raw_line).length == b.headers.length

/-- `Batch.get_validator`: the custom validator if one is set, else the
built-in structural validator. -/
def Batch.get_validator (b : Batch) : String → Bool :=
  match b.validator with
  | some v => v
  | none => b.basic_validator

/-- `Batch.set_validator`: install a validation callable on this batch.  (The
Python method optionally also pickles the callable to disk; that filesystem
side effect is outside the embedding.) -/
def Batch.set_validator (b : Batch) (fn : String → Bool) : Batch :=
  { b with validator := some fn }

/-- The section sizes `np.array_split` uses for `n` sections over `len`
elements: the first `len % n` sections get `len / n + 1` elements, the
remaining `n - len % n` sections get `len / n`. -/
def sectionSizes (len n : Nat) : List Nat :=
  List.replicate (len % n) (len / n + 1) ++ List.replicate (n - len % n) (len / n)

/-- Cut a list into consecutive chunks of the given sizes. -/
def splitSizes : List Nat → List α → List (List α)
  | [], _ => []
  | s :: rest, l => l.take s :: splitSizes rest (l.drop s)

/-- `np.array_split(l, n)`: split `l` into `n` nearly-equal contiguous parts;
raises `ValueError` when `n = 0`. -/
def arraySplit (l : List α) (n : Nat) : Except PyErr (List (List α)) :=
  if n = 0 then .error (.valueError "number sections must be larger than 0.")
  else .ok (splitSizes (sectionSizes l.length n) l)

/-- `DataFrameBatch._create_header_batches`: `num_batches` is the floor of
column count over `batch_size` (`//`, which raises `ZeroDivisionError` when
`batch_size = 0`), then `np.array_split` over the column list. -/
def create_header_batches (columns : List String) (batch_size : Nat) :
    Except PyErr (List (List String)) :=
  if batch_size = 0 then .error .zeroDivision
  else arraySplit columns (columns.length / batch_size)

/-- `DataFrameBatch.train_batch`: the `try` block runs the dict lookup and the
external `train_rnn` call; a `KeyError` escaping either is translated to
`ValueError("batch_idx is invalid")`, every other outcome is returned
unchanged. -/
def train_batch (batches : List (Nat × Batch)) (batch_idx : Nat)
    (train_rnn : LocalConfig → Except PyErr Unit) : Except PyErr Unit :=
  let body : Except PyErr Unit :=
    match batches.lookup batch_idx with
    | none => .error .keyError
    | some b => train_rnn b.config
  match body with
  | .error .keyError => .error (.valueError "batch_idx is invalid")
  | r => r

/-- `DataFrameBatch.set_batch_validator`: reject a non-callable validator with
`ValueError("validator must be callable!")`; translate the `KeyError` of an
unknown batch index to `ValueError("invalid batch number!")`; otherwise install
the validator on the batch (the updated `Batch` is returned, modelling the
in-place update of the stored object).  Whether the Python argument is
callable is a fact about the caller's value, passed here as the flag
`isCallable` alongside the function used when it is. -/
def set_batch_validator (batches : List (Nat × Batch)) (batch_idx : Nat)
    (isCallable : Bool) (validator : String → Bool) : Except PyErr Batch :=
  if !isCallable then .error (.valueError "validator must be callable!")
  else
    match batches.lookup batch_idx with
    | none => .error (.valueError "invalid batch number!")
    | some b => .ok (b.set_validator validator)

/-- Classification used by `generate_batch_lines`: a line counts as valid when
its flag is `None` or `True`. -/
def lineIsValid (line : GenText) : Bool :=
  line.valid == none || line.valid == some true

/-- One iteration of the `generate_batch_lines` loop body: record a valid line
via `add_valid_data`, append any other line to the invalid list. -/
def processLine (b : Batch) (line : GenText) : Batch :=
  if lineIsValid line then b.add_valid_data line
  else { b with gen_data_invalid := b.gen_data_invalid ++ [line] }

/-- `DataFrameBatch.generate_batch_lines`: look up the batch (unknown index is
a `ValueError`), reset its generation state, consume the line sequence produced
by the external `generate_text` call (the sequence itself — already bounded by
the generator's own `gen_lines` / `max_invalid` stopping rule — is the
parameter `lines`), and return the updated batch together with the boolean
`gen_data_count == config.gen_lines`. -/
def generate_batch_lines (batches : List (Nat × Batch)) (batch_idx : Nat)
    (lines : List GenText) : Except PyErr (Batch × Bool) :=
  match batches.lookup batch_idx with
  | none => .error (.valueError "invalid batch index")
  | some batch =>
    let b := lines.foldl processLine batch.reset_gen_data
    .ok (b, b.gen_data_count == b.config.gen_lines)

/-- Number of newline-terminated lines held in a stream. -/
def lineCount (s : String) : Nat := s.data.count '\n'

/-- A generation-state operation on a `Batch`: the two mutators that touch the
accumulated generation data. -/
inductive GenOp where
  | reset
  | add (g : GenText)

/-- Run a sequence of generation-state operations on a batch. -/
def applyGenOps (b : Batch) (ops : List GenOp) : Batch :=
  ops.foldl
    (fun b op =>
      match op with
      | .reset => b.reset_gen_data
      | .add g => b.add_valid_data g)
    b

/-- A pandas cell: either `NaN` or a value (values are kept as their raw
string form; pandas dtype inference is outside the embedding). -/
inductive Cell where
  | nan
  | val (s : String)
deriving Repr, DecidableEq

/-- A pandas `DataFrame`: an ordered list of column names and a list of rows,
each row listing its cells in column order. -/
structure DataFrame where
  headers : List String
  rows : List (List Cell)
deriving Repr, DecidableEq

/-- Replacement performed on each cell by `fillna("")`. -/
def fillCell : Cell → Cell
  | .nan => .val ""
  | .val s => .val s

/-- `df.fillna("")`: replace every NaN cell by the empty string. -/
def DataFrame.fillna (d : DataFrame) : DataFrame :=
  { headers := d.headers, rows := d.rows.map (List.map fillCell) }

/-- `pd.read_csv` on a delimiter-separated text whose first line is the
header: split into lines, skip blank lines (pandas `skip_blank_lines`
default), parse the first line as the header and each further line as a row.
An empty text gives the empty `DataFrame` (matching the guard in
`Batch.synthetic_df`). -/
def readCsv (delim : String) (s : String) : DataFrame :=
  if s = "" then { headers := [], rows := [] }
  else
    match (pySplit "\n" s).filter (fun l => l != "") with
    | [] => { headers := [], rows := [] }
    | h :: rest =>
      { headers := pySplit delim h
        rows := rest.map (fun l => (pySplit delim l).map Cell.val) }

/-- `Batch.synthetic_df`: parse the accumulated generation stream as a
delimiter-separated table. -/
def Batch.synthetic_df (b : Batch) : DataFrame :=
  readCsv b.config.field_delimiter b.gen_data_stream

/-- `pd.concat([d1, d2], axis=1)` for frames carrying the same default row
index: column lists are appended and rows are joined positionally.  (With
unequal row counts pandas instead aligns on the index and pads — the silent
misalignment the source documents as a caveat; the orchestration claims only
concern equal counts.) -/
def concatCols (d1 d2 : DataFrame) : DataFrame :=
  { headers := d1.headers ++ d2.headers
    rows := List.zipWith (fun r1 r2 => r1 ++ r2) d1.rows d2.rows }

/-- `df[names]`: select / reorder columns by name.  Each requested name is
resolved to its first position in `d.headers` (the orchestration only selects
names that are present). -/
def DataFrame.selectCols (d : DataFrame) (names : List String) : DataFrame :=
  { headers := names
    rows := d.rows.map (fun r => names.map (fun n => r.getD (d.headers.indexOf n) Cell.nan)) }

/-- `DataFrameBatch.batches_to_df`: take the first batch's synthetic frame
(`next` on an empty dict raises `StopIteration`), fold `pd.concat(axis=1)`
over the remaining batches in index order, then select the original master
header list. -/
def batches_to_df (batches : List (Nat × Batch)) (master_header_list : List String) :
    Except PyErr DataFrame :=
  match batches with
  | [] => .error .stopIteration
  | b0 :: rest =>
    .ok ((rest.foldl (fun acc p => concatCols acc p.2.synthetic_df) b0.2.synthetic_df).selectCols
      master_header_list)

/-- The caller-supplied `config` dict, restricted to the keys the constructor
reads or writes (other keys are passed through untouched and play no part in
the claims). -/
structure ConfigDict where
  checkpoint_dir : Option String
  field_delimiter : Option String
  gen_lines : Option Nat
deriving Repr, DecidableEq

/-- The prefix of `DataFrameBatch.__init__` up to and including the partition
plan: require `field_delimiter` in the config, default `gen_lines` to the
source row count by writing it into the caller's dict, replace NaN cells of
the caller's DataFrame in place (both in-place mutations are modelled by
returning the updated values), and compute the header batches — even-split
when `batch_headers` is `None` or empty (both falsy in Python), else the
explicit groups.  The mutated `df` and `config` are returned even when the
partition step fails, as the Python mutations persist in the caller across a
raised exception. -/
def dataframe_batch_init (df : DataFrame) (batch_size : Nat)
    (batch_headers : List (List String)) (config : ConfigDict) :
    DataFrame × ConfigDict × Except PyErr (List (List String)) :=
  if config.field_delimiter.isNone then
    (df, config, .error (.valueError "field_delimiter must be in config"))
  else
    let config1 :=
      if config.gen_lines.isNone then { config with gen_lines := some df.rows.length }
      else config
    let df1 := df.fillna
    let groups :=
      if batch_headers.isEmpty then create_header_batches df1.headers batch_size
      else .ok batch_headers
    (df1, config1, groups)

/-- The `Batch` built by `_build_batch_dirs` / `__post_init__`: fresh
accumulators, then `reset_gen_data` (run by `__post_init__`). -/
def mkBatch (ckpt input : String) (headers : List String) (config : LocalConfig) : Batch :=
  Batch.reset_gen_data
    { checkpoint_dir := ckpt
      input_data_path := input
      headers := headers
      config := config
      gen_data_count := 0
      gen_data_stream := ""
      gen_data_invalid := []
      validator := none }

/-- Fixture: a config for a two-column batch generating three lines. -/
def exConfigAB : LocalConfig :=
  { checkpoint_dir := "ckpt/batch_0"
    input_data_path := "ckpt/batch_0/train.csv"
    field_delimiter := ","
    gen_lines := 3 }

/-- Fixture: a config for the second two-column batch. -/
def exConfigCD : LocalConfig :=
  { checkpoint_dir := "ckpt/batch_1"
    input_data_path := "ckpt/batch_1/train.csv"
    field_delimiter := ","
    gen_lines := 3 }

/-- Fixture: batch 0 over columns `a`, `b`. -/
def exBatch0 : Batch := mkBatch "ckpt/batch_0" "ckpt/batch_0/train.csv" ["a", "b"] exConfigAB

/-- Fixture: batch 1 over columns `c`, `d`. -/
def exBatch1 : Batch := mkBatch "ckpt/batch_1" "ckpt/batch_1/train.csv" ["c", "d"] exConfigCD

/-- Fixture: batch 0 after generating three valid rows. -/
def exGen0 : Batch :=
  ((exBatch0.add_valid_data { text := "1,2", valid := some true }).add_valid_data
      { text := "3,4", valid := none }).add_valid_data
    { text := "5,6", valid := some true }

/-- Fixture: batch 1 after generating three valid rows. -/
def exGen1 : Batch :=
  ((exBatch1.add_valid_data { text := "10,20", valid := some true }).add_valid_data
      { text := "30,40", valid := some true }).add_valid_data
    { text := "50,60", valid := some true }

/-- Fixture: a validation callable. -/
def exValidator : String → Bool := fun _ => true

/-- The text appended to the generation stream by recording each of the given
lines in order: each line's text followed by a newline. -/
def concatTexts : List GenText → String
  | [] => ""
  | l :: rest => l.text ++ "\n" ++ concatTexts rest

/-! ## Helper lemmas on the partitioner -/

theorem splitSizes_flatten (sizes : List Nat) (l : List α) :
    (splitSizes sizes l).flatten = l.take sizes.sum := by
  induction sizes generalizing l with
  | nil => simp [splitSizes]
  | cons s rest ih =>
    simp only [splitSizes, List.flatten_cons, ih, List.sum_cons, List.take_add]

theorem splitSizes_length (sizes : List Nat) (l : List α) :
    (splitSizes sizes l).length = sizes.length := by
  induction sizes generalizing l with
  | nil => rfl
  | cons s rest ih => simp [splitSizes, ih]

theorem splitSizes_map_length (sizes : List Nat) (l : List α) (h : sizes.sum ≤ l.length) :
    (splitSizes sizes l).map List.length = sizes := by
  induction sizes generalizing l with
  | nil => rfl
  | cons s rest ih =>
    simp only [List.sum_cons] at h
    simp only [splitSizes, List.map_cons, List.length_take]
    rw [ih (l.drop s) (by simp [List.length_drop]; omega)]
    congr 1
    omega

theorem sectionSizes_sum (len n : Nat) (hn : n ≠ 0) : (sectionSizes len n).sum = len := by
  have h1 : len % n < n := Nat.mod_lt _ (Nat.pos_of_ne_zero hn)
  have h2 : n * (len / n) + len % n = len := Nat.div_add_mod len n
  have h3 : len % n * (len / n) ≤ n * (len / n) :=
    Nat.mul_le_mul_right _ (le_of_lt h1)
  simp only [sectionSizes, List.sum_append, List.sum_replicate, smul_eq_mul]
  rw [Nat.mul_add, Nat.mul_one, Nat.sub_mul]
  omega

theorem sectionSizes_length (len n : Nat) (hn : n ≠ 0) : (sectionSizes len n).length = n := by
  have h1 : len % n < n := Nat.mod_lt _ (Nat.pos_of_ne_zero hn)
  simp only [sectionSizes, List.length_append, List.length_replicate]
  omega

theorem mem_sectionSizes (len n s : Nat) (h : s ∈ sectionSizes len n) :
    s = len / n ∨ s = len / n + 1 := by
  simp only [sectionSizes, List.mem_append, List.mem_replicate] at h
  tauto

theorem create_header_batches_ok (cols : List String) (bs : Nat)
    (h1 : 1 ≤ bs) (h2 : bs ≤ cols.length) :
    create_header_batches cols bs =
      .ok (splitSizes (sectionSizes cols.length (cols.length / bs)) cols) := by
  have hbs : ¬ bs = 0 := by omega
  have hn : ¬ cols.length / bs = 0 := by
    have := (Nat.one_le_div_iff (by omega : 0 < bs)).mpr h2
    omega
  simp [create_header_batches, arraySplit, hbs, hn]

/-! ## Claims -/

/-- C1: in even-split mode the planner computes `num_groups` as the floor of
the column count over the target size, splits the column list into that many
nearly-equal contiguous chunks preserving the original order (so at least one
group whenever it succeeds), and fails with the configuration `ValueError`
raised by `np.array_split` whenever `total_columns < target_size` would yield
zero groups. -/
theorem even_split_planner_spec (cols : List String) (bs : Nat) (hbs : 1 ≤ bs) :
    (cols.length < bs →
      create_header_batches cols bs =
        .error (.valueError "number sections must be larger than 0.")) ∧
    (bs ≤ cols.length →
      ∃ groups, create_header_batches cols bs = .ok groups ∧
        groups.length = cols.length / bs ∧
        1 ≤ groups.length ∧
        groups.flatten = cols ∧
        ∀ g ∈ groups,
          g.length = cols.length / (cols.length / bs) ∨
          g.length = cols.length / (cols.length / bs) + 1) := by
  constructor
  · intro hlt
    have hz : cols.length / bs = 0 := Nat.div_eq_of_lt hlt
    have hbs0 : ¬ bs = 0 := by omega
    simp [create_header_batches, arraySplit, hbs0, hz]
  · intro hle
    have hn : cols.length / bs ≠ 0 := by
      have := (Nat.one_le_div_iff (by omega : 0 < bs)).mpr hle
      omega
    refine ⟨_, create_header_batches_ok cols bs hbs hle, ?_, ?_, ?_, ?_⟩
    · rw [splitSizes_length, sectionSizes_length _ _ hn]
    · rw [splitSizes_length, sectionSizes_length _ _ hn]
      exact Nat.pos_of_ne_zero hn
    · rw [splitSizes_flatten, sectionSizes_sum _ _ hn, List.take_length]
    · intro g hg
      have hmem : g.length ∈ (splitSizes (sectionSizes cols.length (cols.length / bs)) cols).map
          List.length := List.mem_map_of_mem _ hg
      rw [splitSizes_map_length _ _ (by rw [sectionSizes_sum _ _ hn])] at hmem
      exact mem_sectionSizes _ _ _ hmem

/-- C1 witness: five columns with target size 2 give two nearly-equal groups,
and two columns with target size 3 are rejected. -/
theorem even_split_planner_spec_witness :
    create_header_batches ["a", "b"] 3 =
      .error (.valueError "number sections must be larger than 0.") ∧
    ∃ groups, create_header_batches ["a", "b", "c", "d", "e"] 2 = .ok groups ∧
      groups.length = 2 ∧ 1 ≤ groups.length ∧
      groups.flatten = ["a", "b", "c", "d", "e"] ∧
      ∀ g ∈ groups, g.length = 2 ∨ g.length = 2 + 1 :=
  ⟨(even_split_planner_spec ["a", "b"] 3 (by decide)).1 (by decide),
   (even_split_planner_spec ["a", "b", "c", "d", "e"] 2 (by decide)).2 (by decide)⟩

/-- C2: for every column list and every `batch_size` between 1 and the number
of columns, the even-split groups concatenate in batch order to exactly the
original column list, and every column name occurs across the groups exactly
as often as in the source (so with duplicate-free sources, exactly once, with
no extras introduced). -/
theorem partition_completeness (cols : List String) (bs : Nat)
    (h1 : 1 ≤ bs) (h2 : bs ≤ cols.length) :
    ∃ groups, create_header_batches cols bs = .ok groups ∧
      groups.flatten = cols ∧
      ∀ x : String, (groups.map (fun g => g.count x)).sum = cols.count x := by
  have hn : cols.length / bs ≠ 0 := by
    have := (Nat.one_le_div_iff (by omega : 0 < bs)).mpr h2
    omega
  have hflat : (splitSizes (sectionSizes cols.length (cols.length / bs)) cols).flatten = cols := by
    rw [splitSizes_flatten, sectionSizes_sum _ _ hn, List.take_length]
  refine ⟨_, create_header_batches_ok cols bs h1 h2, hflat, fun x => ?_⟩
  have := List.count_flatten x (splitSizes (sectionSizes cols.length (cols.length / bs)) cols)
  rw [hflat] at this
  exact this.symm

/-- C2 witness: the partition of four columns with target size 2 reassembles
the source list, each column occurring exactly once. -/
theorem partition_completeness_witness :
    ∃ groups, create_header_batches ["a", "b", "c", "d"] 2 = .ok groups ∧
      groups.flatten = ["a", "b", "c", "d"] ∧
      ∀ x : String, (groups.map (fun g => g.count x)).sum = ["a", "b", "c", "d"].count x :=
  partition_completeness ["a", "b", "c", "d"] 2 (by decide) (by decide)

theorem foldl_processLine (lines : List GenText) (b : Batch) :
    (lines.foldl processLine b).gen_data_count
        = b.gen_data_count + (lines.filter lineIsValid).length ∧
    (lines.foldl processLine b).gen_data_invalid
        = b.gen_data_invalid ++ lines.filter (fun l => !lineIsValid l) ∧
    (lines.foldl processLine b).gen_data_stream
        = b.gen_data_stream ++ concatTexts (lines.filter lineIsValid) ∧
    (lines.foldl processLine b).config = b.config := by
  induction lines generalizing b with
  | nil => simp [concatTexts]
  | cons l rest ih =>
    by_cases hv : lineIsValid l
    · simpa [processLine, hv, Batch.add_valid_data, concatTexts, String.append_assoc,
        Nat.add_assoc, Nat.add_comm 1] using ih (b.add_valid_data l)
    · simpa [processLine, hv, concatTexts] using
        ih { b with gen_data_invalid := b.gen_data_invalid ++ [l] }

/-- C3: consuming the generator's line sequence classifies each line by its
`valid` flag — `none`/`true` lines are recorded via `add_valid_data`
(appended to the stream in order, count incremented), all others are appended
to the invalid-record list — and the returned boolean is `true` exactly when
the final valid count equals the configured `gen_lines`; in particular when
the sequence holds fewer than `gen_lines` valid lines (as when the generator
stopped on exceeding `max_invalid`), the boolean is `false` and the count
falls short. -/
theorem generation_accounting (batches : List (Nat × Batch)) (idx : Nat) (batch : Batch)
    (lines : List GenText) (hfound : batches.lookup idx = some batch) :
    ∃ b ok, generate_batch_lines batches idx lines = .ok (b, ok) ∧
      b.gen_data_count = (lines.filter lineIsValid).length ∧
      b.gen_data_stream
        = batch.reset_gen_data.gen_data_stream ++ concatTexts (lines.filter lineIsValid) ∧
      b.gen_data_invalid = lines.filter (fun l => !lineIsValid l) ∧
      (ok = true ↔ b.gen_data_count = batch.config.gen_lines) ∧
      ((lines.filter lineIsValid).length < batch.config.gen_lines →
        ok = false ∧ b.gen_data_count < batch.config.gen_lines) := by
  obtain ⟨hcount, hinv, hstream, hconfig⟩ := foldl_processLine lines batch.reset_gen_data
  have hrcount : batch.reset_gen_data.gen_data_count = 0 := rfl
  have hrinv : batch.reset_gen_data.gen_data_invalid = [] := rfl
  have hrconfig : batch.reset_gen_data.config = batch.config := rfl
  rw [hrcount, Nat.zero_add] at hcount
  rw [hrinv, List.nil_append] at hinv
  rw [hrconfig] at hconfig
  refine ⟨lines.foldl processLine batch.reset_gen_data,
    (lines.foldl processLine batch.reset_gen_data).gen_data_count
      == (lines.foldl processLine batch.reset_gen_data).config.gen_lines, ?_, hcount, hstream,
    hinv, ?_, ?_⟩
  · simp only [generate_batch_lines, hfound]
  · rw [hconfig]
    exact beq_iff_eq
  · intro hlt
    have hne : (lines.foldl processLine batch.reset_gen_data).gen_data_count
        ≠ batch.config.gen_lines := by omega
    constructor
    · rw [hconfig]
      exact beq_eq_false_iff_ne.mpr hne
    · omega

/-- C3 witness: a sequence with two valid lines (one flagged `true`, one
unclassified) and one invalid line, against a batch requesting three lines,
yields count 2, the invalid line in the invalid list, and a `false` result. -/
theorem generation_accounting_witness :
    ∃ b ok,
      generate_batch_lines [(0, exBatch0)] 0
          [{ text := "1,2", valid := some true }, { text := "zzz", valid := some false },
           { text := "3,4", valid := none }] = .ok (b, ok) ∧
      b.gen_data_count = 2 ∧
      b.gen_data_stream = "a,b\n" ++ "1,2\n3,4\n" ∧
      b.gen_data_invalid = [{ text := "zzz", valid := some false }] ∧
      ok = false := by
  obtain ⟨b, ok, h1, h2, h3, h4, _, h6⟩ :=
    generation_accounting [(0, exBatch0)] 0 exBatch0
      [{ text := "1,2", valid := some true }, { text := "zzz", valid := some false },
       { text := "3,4", valid := none }] rfl
  refine ⟨b, ok, h1, ?_, ?_, ?_, ?_⟩
  · rw [h2]; decide
  · rw [h3]; decide
  · rw [h4]; decide
  · exact (h6 (by rw [h2] at *; decide)).1

theorem lineCount_append (s t : String) : lineCount (s ++ t) = lineCount s + lineCount t := by
  simp [lineCount, String.data_append, List.count_append]

theorem lineCount_eq_zero (s : String) (h : '\n' ∉ s.data) : lineCount s = 0 :=
  List.count_eq_zero.mpr h

theorem pyJoin_no_newline (delim : String) (hs : List String)
    (hd : '\n' ∉ delim.data) (hh : ∀ h ∈ hs, '\n' ∉ h.data) :
    '\n' ∉ (pyJoin delim hs).data := by
  induction hs with
  | nil => simp [pyJoin]
  | cons a rest ih =>
    cases rest with
    | nil =>
      simpa [pyJoin] using hh a (by simp)
    | cons b t =>
      have ha : '\n' ∉ a.data := hh a (by simp)
      have hrest : '\n' ∉ (pyJoin delim (b :: t)).data :=
        ih (fun h hm => hh h (List.mem_cons_of_mem a hm))
      simp only [pyJoin, String.data_append, List.mem_append]
      tauto

theorem applyGenOps_fixed (b : Batch) (ops : List GenOp) :
    (applyGenOps b ops).config = b.config ∧ (applyGenOps b ops).headers = b.headers := by
  induction ops generalizing b with
  | nil => exact ⟨rfl, rfl⟩
  | cons op rest ih =>
    cases op with
    | reset => exact ih b.reset_gen_data
    | add g => exact ih (b.add_valid_data g)

theorem applyGenOps_invariant (b : Batch) (ops : List GenOp)
    (hd : '\n' ∉ b.config.field_delimiter.data)
    (hh : ∀ h ∈ b.headers, '\n' ∉ h.data)
    (hops : ∀ g, GenOp.add g ∈ ops → '\n' ∉ g.text.data)
    (hinv : 1 ≤ lineCount b.gen_data_stream ∧
      b.gen_data_count = lineCount b.gen_data_stream - 1) :
    1 ≤ lineCount (applyGenOps b ops).gen_data_stream ∧
      (applyGenOps b ops).gen_data_count = lineCount (applyGenOps b ops).gen_data_stream - 1 := by
  induction ops generalizing b with
  | nil => exact hinv
  | cons op rest ih =>
    cases op with
    | reset =>
      refine ih b.reset_gen_data hd hh (fun g hm => hops g (List.mem_cons_of_mem _ hm)) ?_
      have hstream : (b.reset_gen_data).gen_data_stream
          = pyJoin b.config.field_delimiter b.headers ++ "\n" := rfl
      have hjoin : lineCount (pyJoin b.config.field_delimiter b.headers) = 0 :=
        lineCount_eq_zero _ (pyJoin_no_newline _ _ hd hh)
      have hone : lineCount "\n" = 1 := by decide
      constructor
      · rw [hstream, lineCount_append, hjoin, hone]
      · rw [hstream, lineCount_append, hjoin, hone]
        rfl
    | add g =>
      refine ih (b.add_valid_data g) hd hh (fun g' hm => hops g' (List.mem_cons_of_mem _ hm)) ?_
      have hg : '\n' ∉ g.text.data := hops g (by simp)
      have hstream : (b.add_valid_data g).gen_data_stream
          = b.gen_data_stream ++ g.text ++ "\n" := rfl
      have hcount : (b.add_valid_data g).gen_data_count = b.gen_data_count + 1 := rfl
      have hone : lineCount "\n" = 1 := by decide
      rw [hstream, hcount, lineCount_append, lineCount_append, lineCount_eq_zero _ hg, hone]
      omega

/-- C5: starting from a freshly reset batch, after any sequence of
`reset_gen_data` and `add_valid_data` operations in which every added line's
text (and, as the stream's header line presupposes, the field delimiter and
the header names) contains no line terminator, `gen_data_count` equals the
number of newline-terminated lines held in `gen_data_stream` minus one — the
header line; both operations preserve the invariant. -/
theorem generated_count_invariant (b : Batch) (ops : List GenOp)
    (hd : '\n' ∉ b.config.field_delimiter.data)
    (hh : ∀ h ∈ b.headers, '\n' ∉ h.data)
    (hops : ∀ g, GenOp.add g ∈ ops → '\n' ∉ g.text.data) :
    (applyGenOps b.reset_gen_data ops).gen_data_count
      = lineCount (applyGenOps b.reset_gen_data ops).gen_data_stream - 1 := by
  have hstream : (b.reset_gen_data).gen_data_stream
      = pyJoin b.config.field_delimiter b.headers ++ "\n" := rfl
  have hjoin : lineCount (pyJoin b.config.field_delimiter b.headers) = 0 :=
    lineCount_eq_zero _ (pyJoin_no_newline _ _ hd hh)
  have hone : lineCount "\n" = 1 := by decide
  have hlc : lineCount (b.reset_gen_data).gen_data_stream = 1 := by
    rw [hstream, lineCount_append, hjoin, hone]
  exact (applyGenOps_invariant b.reset_gen_data ops hd hh hops
    ⟨by rw [hlc], by rw [hlc]; rfl⟩).2

/-- C5 witness: two appends around an intervening reset keep the count one
less than the stream's line count. -/
theorem generated_count_invariant_witness :
    (applyGenOps exBatch0.reset_gen_data
        [GenOp.add { text := "1,2", valid := some true }, GenOp.reset,
         GenOp.add { text := "3,4", valid := none }]).gen_data_count
      = lineCount (applyGenOps exBatch0.reset_gen_data
          [GenOp.add { text := "1,2", valid := some true }, GenOp.reset,
           GenOp.add { text := "3,4", valid := none }]).gen_data_stream - 1 :=
  generated_count_invariant exBatch0
    [GenOp.add { text := "1,2", valid := some true }, GenOp.reset,
     GenOp.add { text := "3,4", valid := none }]
    (by decide) (by decide)
    (by
      intro g hm
      simp only [List.mem_cons, List.not_mem_nil, or_false] at hm
      rcases hm with h | h | h <;> first | (cases h; decide) | (cases h))

/-- C6 counterexample: with batch 0 present, an external `KeyError` raised by
the training call does not propagate unmodified — the `try` block catches it
and raises the invalid-batch-index `ValueError` instead. -/
theorem train_batch_masks_external_keyerror :
    train_batch [(0, exBatch0)] 0 (fun _ => .error .keyError)
        = .error (.valueError "batch_idx is invalid") ∧
      (Except.error PyErr.keyError : Except PyErr Unit)
        ≠ .error (.valueError "batch_idx is invalid") :=
  ⟨rfl, by simp⟩

/-- C6 (amended): `train_batch` on an unknown batch index fails with the
"batch_idx is invalid" error; a success or a non-`KeyError` failure of the
external training call is returned unmodified; but a `KeyError` raised by the
external call is also translated into the invalid-batch-index error, because
the `try` block spans the training call as well as the lookup. -/
theorem train_batch_error_policy (batches : List (Nat × Batch)) (idx : Nat)
    (train_rnn : LocalConfig → Except PyErr Unit) :
    (batches.lookup idx = none →
      train_batch batches idx train_rnn = .error (.valueError "batch_idx is invalid")) ∧
    (∀ b, batches.lookup idx = some b → train_rnn b.config = .ok () →
      train_batch batches idx train_rnn = .ok ()) ∧
    (∀ b e, batches.lookup idx = some b → train_rnn b.config = .error e →
      e ≠ .keyError → train_batch batches idx train_rnn = .error e) ∧
    (∀ b, batches.lookup idx = some b → train_rnn b.config = .error .keyError →
      train_batch batches idx train_rnn = .error (.valueError "batch_idx is invalid")) := by
  refine ⟨?_, ?_, ?_, ?_⟩
  · intro hnone
    simp [train_batch, hnone]
  · intro b hsome hok
    simp [train_batch, hsome, hok]
  · intro b e hsome herr hne
    cases e <;> simp_all [train_batch]
  · intro b hsome herr
    simp [train_batch, hsome, herr]

/-- C6 witness: the four cases of the amended policy at concrete inputs. -/
theorem train_batch_error_policy_witness :
    train_batch [] 0 (fun _ => .ok ()) = .error (.valueError "batch_idx is invalid") ∧
    train_batch [(0, exBatch0)] 0 (fun _ => .ok ()) = .ok () ∧
    train_batch [(0, exBatch0)] 0 (fun _ => .error (.external 7)) = .error (.external 7) ∧
    train_batch [(0, exBatch0)] 0 (fun _ => .error .keyError)
      = .error (.valueError "batch_idx is invalid") :=
  ⟨(train_batch_error_policy [] 0 (fun _ => .ok ())).1 rfl,
   (train_batch_error_policy [(0, exBatch0)] 0 (fun _ => .ok ())).2.1 exBatch0 rfl rfl,
   (train_batch_error_policy [(0, exBatch0)] 0 (fun _ => .error (.external 7))).2.2.1
     exBatch0 (.external 7) rfl rfl (by simp),
   (train_batch_error_policy [(0, exBatch0)] 0 (fun _ => .error .keyError)).2.2.2
     exBatch0 rfl rfl⟩

/-- C7: assigning a batch validator rejects a non-callable argument with the
configuration `ValueError`, rejects a callable argument addressed to an
unknown batch index with the "invalid batch number" error, and otherwise
installs the validator on that batch. -/
theorem set_batch_validator_spec (batches : List (Nat × Batch)) (idx : Nat)
    (isCallable : Bool) (v : String → Bool) :
    (isCallable = false →
      set_batch_validator batches idx isCallable v
        = .error (.valueError "validator must be callable!")) ∧
    (isCallable = true → batches.lookup idx = none →
      set_batch_validator batches idx isCallable v
        = .error (.valueError "invalid batch number!")) ∧
    (∀ b, isCallable = true → batches.lookup idx = some b →
      set_batch_validator batches idx isCallable v = .ok (b.set_validator v) ∧
      (b.set_validator v).validator = some v) := by
  refine ⟨?_, ?_, ?_⟩
  · intro h
    simp [set_batch_validator, h]
  · intro h hnone
    simp [set_batch_validator, h, hnone]
  · intro b h hsome
    exact ⟨by simp [set_batch_validator, h, hsome], rfl⟩

/-- C7 witness: the three cases at concrete inputs. -/
theorem set_batch_validator_spec_witness :
    set_batch_validator [(0, exBatch0)] 0 false exValidator
      = .error (.valueError "validator must be callable!") ∧
    set_batch_validator [(0, exBatch0)] 5 true exValidator
      = .error (.valueError "invalid batch number!") ∧
    set_batch_validator [(0, exBatch0)] 0 true exValidator
      = .ok (exBatch0.set_validator exValidator) ∧
    (exBatch0.set_validator exValidator).validator = some exValidator :=
  ⟨(set_batch_validator_spec [(0, exBatch0)] 0 false exValidator).1 rfl,
   (set_batch_validator_spec [(0, exBatch0)] 5 true exValidator).2.1 rfl rfl,
   ((set_batch_validator_spec [(0, exBatch0)] 0 true exValidator).2.2 exBatch0 rfl rfl).1,
   ((set_batch_validator_spec [(0, exBatch0)] 0 true exValidator).2.2 exBatch0 rfl rfl).2⟩

/-- C8: `reset_gen_data` leaves any batch with an empty invalid-record list, a
stream holding exactly the headers joined by the configured field delimiter
followed by one line terminator, and a zero valid-record count, regardless of
the prior accumulated state. -/
theorem reset_gen_data_spec (b : Batch) :
    (b.reset_gen_data).gen_data_invalid = [] ∧
    (b.reset_gen_data).gen_data_stream = pyJoin b.config.field_delimiter b.headers ++ "\n" ∧
    (b.reset_gen_data).gen_data_count = 0 :=
  ⟨rfl, rfl, rfl⟩

/-- C9: with no custom validator installed, `get_validator` returns the
built-in structural validator, which accepts a line exactly when splitting it
on the configured field delimiter yields as many fields as the batch has
headers. -/
theorem default_validator_spec (b : Batch) (line : String) (hnone : b.validator = none) :
    b.get_validator line = true ↔
      (pySplit b.config.field_delimiter line).length = b.headers.length := by
  unfold Batch.get_validator
  rw [hnone]
  simp [Batch.basic_validator]

/-- C9 witness: on a two-header batch with delimiter `,`, the default
validator accepts a two-field line and (by the same equivalence) rejects a
one-field line. -/
theorem default_validator_spec_witness :
    exBatch0.get_validator "x,y" = true ∧ ¬ exBatch0.get_validator "xy" = true :=
  ⟨(default_validator_spec exBatch0 "x,y" rfl).mpr (by decide),
   fun h => by have := (default_validator_spec exBatch0 "xy" rfl).mp h; revert this; decide⟩

/-- C4: reassembly takes the batches in index order, parses each accumulated
stream into its generated table, concatenates the tables column-wise in that
order, and selects/reorders the columns to exactly match the original column
list; in particular two batches over `[a,b]` and `[c,d]` (the even split of
`[a,b,c,d]` with target size 2) that each generated three rows reassemble to
a three-row table with columns exactly `[a,b,c,d]` in order. -/
theorem batches_to_df_spec :
    (∀ (b0 : Nat × Batch) (rest : List (Nat × Batch)) (master : List String),
      ∃ d, batches_to_df (b0 :: rest) master = .ok d ∧ d.headers = master) ∧
    create_header_batches ["a", "b", "c", "d"] 2 = .ok [["a", "b"], ["c", "d"]] ∧
    batches_to_df [(0, exGen0), (1, exGen1)] ["a", "b", "c", "d"]
      = .ok (DataFrame.mk ["a", "b", "c", "d"]
          [[Cell.val "1", Cell.val "2", Cell.val "10", Cell.val "20"],
           [Cell.val "3", Cell.val "4", Cell.val "30", Cell.val "40"],
           [Cell.val "5", Cell.val "6", Cell.val "50", Cell.val "60"]]) :=
  ⟨fun _ _ _ => ⟨_, rfl, rfl⟩, rfl, rfl⟩

/-- C10: the constructor mutates its caller-supplied arguments: every NaN
cell of the source frame becomes the empty string (the updated frame is among
the returned values, modelling the in-place `fillna`), and when `gen_lines`
is absent from the config dict it is inserted with the source row count as
its value, while a present `gen_lines` leaves the dict untouched. -/
theorem init_mutates_arguments (df : DataFrame) (batch_size : Nat)
    (batch_headers : List (List String)) (config : ConfigDict)
    (hdelim : config.field_delimiter.isSome) :
    ∃ df' config' r,
      dataframe_batch_init df batch_size batch_headers config = (df', config', r) ∧
      df'.headers = df.headers ∧
      df'.rows = df.rows.map (List.map fillCell) ∧
      (∀ c, fillCell c = if c = Cell.nan then Cell.val "" else c) ∧
      (config.gen_lines = none →
        config' = { config with gen_lines := some df.rows.length }) ∧
      (∀ n, config.gen_lines = some n → config' = config) := by
  have hnone : config.field_delimiter.isNone = false := by
    cases h : config.field_delimiter
    · rw [h] at hdelim
      simp at hdelim
    · rfl
  by_cases hgl : config.gen_lines = none
  · refine ⟨df.fillna, { config with gen_lines := some df.rows.length },
      if batch_headers.isEmpty then create_header_batches df.fillna.headers batch_size
      else .ok batch_headers,
      ?_, rfl, rfl, fun c => by cases c <;> rfl, fun _ => rfl, ?_⟩
    · simp [dataframe_batch_init, hnone, hgl]
    · intro n hn
      rw [hgl] at hn
      cases hn
  · obtain ⟨n, hn⟩ := Option.ne_none_iff_exists'.mp hgl
    refine ⟨df.fillna, config,
      if batch_headers.isEmpty then create_header_batches df.fillna.headers batch_size
      else .ok batch_headers,
      ?_, rfl, rfl, fun c => by cases c <;> rfl, fun h => absurd h hgl, fun _ _ => rfl⟩
    simp [dataframe_batch_init, hnone, hn]

/-- C10 witness: a one-column frame with a NaN cell and a config lacking
`gen_lines` comes back with the NaN replaced by the empty string and
`gen_lines` set to the row count. -/
theorem init_mutates_arguments_witness :
    ∃ df' config' r,
      dataframe_batch_init (DataFrame.mk ["a"] [[Cell.nan], [Cell.val "x"]]) 1 []
          (ConfigDict.mk (some "ckpt") (some ",") none) = (df', config', r) ∧
      df'.headers = ["a"] ∧
      df'.rows = [[Cell.nan], [Cell.val "x"]].map (List.map fillCell) ∧
      (∀ c, fillCell c = if c = Cell.nan then Cell.val "" else c) ∧
      ((none : Option Nat) = none →
        config' = ConfigDict.mk (some "ckpt") (some ",") (some 2)) ∧
      (∀ n, (none : Option Nat) = some n →
        config' = ConfigDict.mk (some "ckpt") (some ",") none) :=
  init_mutates_arguments (DataFrame.mk ["a"] [[Cell.nan], [Cell.val "x"]]) 1 []
    (ConfigDict.mk (some "ckpt") (some ",") none) (by decide)

end GretelBatch
